import Mathlib

/-!
# galaxycache observability: measurements, views and latency helper

A shallow embedding of `observability.go`.  The declarations of the Go file are
package-level values; they are embedded as Lean constants in declaration order.
Histogram boundaries are numeric literals and are embedded as exact rationals.
-/

namespace Galaxycache

/-! ## Unit constants -/

def unitDimensionless : String := "1"
def unitBytes : String := "By"
def unitMillisecond : String := "ms"

/-! ## The consumed stats runtime: measures, aggregations, views -/

/-- Value kind of a measure: `stats.Int64` or `stats.Float64`. -/
inductive ValueKind where
  | int64
  | float64
deriving DecidableEq, Repr

/-- A measure as built by `stats.Int64(name, description, unit)` or
`stats.Float64(name, description, unit)`. -/
structure Measure where
  name : String
  description : String
  unit : String
  kind : ValueKind
deriving DecidableEq, Repr

/-- The constructor `stats.Int64`. -/
def statsInt64 (name description unit : String) : Measure :=
  { name := name, description := description, unit := unit, kind := ValueKind.int64 }

/-- The constructor `stats.Float64`. -/
def statsFloat64 (name description unit : String) : Measure :=
  { name := name, description := description, unit := unit, kind := ValueKind.float64 }

/-- An aggregation: `view.Count()` or `view.Distribution(bounds...)`. -/
inductive Aggregation where
  | count
  | distribution (bounds : List ℚ)
deriving DecidableEq

/-- The constructor `view.Count()`. -/
def viewCount : Aggregation := Aggregation.count

/-- The constructor `view.Distribution(bounds...)`. -/
def viewDistribution (bounds : List ℚ) : Aggregation := Aggregation.distribution bounds

/-- A `view.View` literal with the four fields the source sets. -/
structure View where
  Name : String
  Description : String
  Measure : Measure
  Aggregation : Aggregation
deriving DecidableEq

/-! ## Boundary ladders -/

/-- The arguments of `defaultBytesDistribution`. -/
def defaultBytesBounds : List ℚ :=
  [0, 1024, 2048, 4096, 16384, 65536, 262144, 1048576, 4194304, 16777216, 67108864,
   268435456, 1073741824, 4294967296]

/-- The arguments of `defaultMillisecondsDistribution`. -/
def defaultMillisecondsBounds : List ℚ :=
  [0, 0.01, 0.05, 0.1, 0.3, 0.6, 0.8, 1, 2, 3, 4, 5, 6, 8, 10, 13, 16, 20, 25, 30, 40, 50,
   65, 80, 100, 130, 160, 200, 250, 300, 400, 500, 650, 800, 1000, 2000, 5000, 10000,
   20000, 50000, 100000]

def defaultBytesDistribution : Aggregation := viewDistribution defaultBytesBounds

def defaultMillisecondsDistribution : Aggregation :=
  viewDistribution defaultMillisecondsBounds

/-! ## Measurement declarations -/

def MGets : Measure := statsInt64 "gets" "The number of Get requests" unitDimensionless
def MCacheHits : Measure :=
  statsInt64 "cache_hits" "The number of times that either cache was good" unitDimensionless
def MCacheMisses : Measure :=
  statsInt64 "cache_misses" "The number of times that either cache was not good"
    unitDimensionless
def MStarAuthorityLoads : Measure :=
  statsInt64 "star_loads" "The number of remote loads or remote cache hits" unitDimensionless
def MStarAuthorityErrors : Measure :=
  statsInt64 "star_errors" "The number of remote errors" unitDimensionless
def MLoads : Measure := statsInt64 "loads" "The number of gets/cacheHits" unitDimensionless
def MLoadErrors : Measure :=
  statsInt64 "loads_errors" "The number of errors encountered during Get" unitDimensionless
def MLoadsDeduped : Measure :=
  statsInt64 "loads_deduped" "The number of loads after singleflight" unitDimensionless
def MLocalLoads : Measure :=
  statsInt64 "local_loads" "The number of good local loads" unitDimensionless
def MLocalLoadErrors : Measure :=
  statsInt64 "local_load_errors" "The number of bad local loads" unitDimensionless
def MServerRequests : Measure :=
  statsInt64 "server_requests"
    "The number of Gets that came over the network from starAuthorities" unitDimensionless
def MKeyLength : Measure := statsInt64 "key_length" "The length of keys" unitBytes
def MValueLength : Measure := statsInt64 "value_length" "The length of values" unitBytes
def MRoundtripLatencyMilliseconds : Measure :=
  statsFloat64 "roundtrip_latency" "Roundtrip latency in milliseconds" unitMillisecond

/-- Every measure declared in the measurement `var` block, in declaration order. -/
def declaredMeasures : List Measure :=
  [MGets, MCacheHits, MCacheMisses, MStarAuthorityLoads, MStarAuthorityErrors, MLoads,
   MLoadErrors, MLoadsDeduped, MLocalLoads, MLocalLoadErrors, MServerRequests, MKeyLength,
   MValueLength, MRoundtripLatencyMilliseconds]

/-! ## Views -/

def AllViews : List View :=
  [ { Name := "galaxycache/gets", Description := "The number of Get requests",
      Measure := MGets, Aggregation := viewCount },
    { Name := "galaxycache/cache_hits",
      Description := "The number of times that either cache was good",
      Measure := MCacheHits, Aggregation := viewCount },
    { Name := "galaxycache/cache_misses",
      Description := "The number of times that either cache was not good",
      Measure := MCacheMisses, Aggregation := viewCount },
    { Name := "galaxycache/star_loads",
      Description := "The number of remote loads or remote cache hits",
      Measure := MStarAuthorityLoads, Aggregation := viewCount },
    { Name := "galaxycache/star_errors", Description := "The number of remote errors",
      Measure := MStarAuthorityErrors, Aggregation := viewCount },
    { Name := "galaxycache/loads", Description := "The number of loads after singleflight",
      Measure := MLoads, Aggregation := viewCount },
    { Name := "galaxycache/loads_deduped",
      Description := "The number of loads after singleflight",
      Measure := MLoadsDeduped, Aggregation := viewCount },
    { Name := "galaxycache/local_loads", Description := "The number of good local loads",
      Measure := MLocalLoads, Aggregation := viewCount },
    { Name := "galaxycache/local_load_errors", Description := "The number of bad local loads",
      Measure := MLocalLoadErrors, Aggregation := viewCount },
    { Name := "galaxycache/server_requests",
      Description := "The number of Gets that came over the network from starAuthorities",
      Measure := MServerRequests, Aggregation := viewCount },
    { Name := "galaxycache/key_length", Description := "The distribution of the key lengths",
      Measure := MKeyLength, Aggregation := defaultBytesDistribution },
    { Name := "galaxycache/value_length",
      Description := "The distribution of the value lengths",
      Measure := MValueLength, Aggregation := defaultBytesDistribution },
    { Name := "galaxycache/roundtrip_latency", Description := "The roundtrip latency",
      Measure := MRoundtripLatencyMilliseconds,
      Aggregation := defaultMillisecondsDistribution } ]

/-! ## Latency helper -/

/-- The largest `time.Duration`, `1<<63 - 1` nanoseconds. -/
def maxDuration : Int := 9223372036854775807

/-- The smallest `time.Duration`, `-1 << 63` nanoseconds. -/
def minDuration : Int := -9223372036854775808

/-- `time.Since(start)` with the clock reading `now` explicit, that is `now.Sub(start)`.
Instants are counts of nanoseconds on one time line. The result is an int64 `Duration`:
the difference when it fits, otherwise the minimum or the maximum duration. -/
def timeSince (now start : Int) : Int :=
  let d := now - start
  if minDuration ≤ d ∧ d ≤ maxDuration then d
  else if now < start then minDuration
  else maxDuration

/-- `Duration.Nanoseconds`: the duration as an int64 count of nanoseconds. -/
def nanoseconds (d : Int) : Int := d

/-- The conversion to float64 and the division are taken exactly, in the rationals. -/
def sinceInMilliseconds (now start : Int) : ℚ :=
  let d := timeSince now start
  (nanoseconds d : ℚ) / 1e6

/-! ## Buckets of a boundary ladder -/

/-- The pairs of consecutive boundaries of a ladder. -/
def buckets (l : List ℚ) : List (ℚ × ℚ) := l.zip l.tail

end Galaxycache

namespace Galaxycache

theorem bytes_chain : List.Chain' (· < ·) defaultBytesBounds := by
  simp only [defaultBytesBounds, List.chain'_cons, List.chain'_singleton]
  norm_num

theorem ms_chain : List.Chain' (· < ·) defaultMillisecondsBounds := by
  simp only [defaultMillisecondsBounds, List.chain'_cons, List.chain'_singleton]
  norm_num

theorem bytes_sorted : defaultBytesBounds.Pairwise (· < ·) :=
  List.chain'_iff_pairwise.mp bytes_chain

theorem ms_sorted : defaultMillisecondsBounds.Pairwise (· < ·) :=
  List.chain'_iff_pairwise.mp ms_chain

/-- C1: every view of `AllViews` reads a measure of the measurement block, and its
aggregation is `Count` or one of the two distributions, each of which carries an explicit
non-empty list of boundaries. -/
theorem allViews_measure_declared_and_aggregation :
    (∀ v ∈ AllViews, v.Measure ∈ declaredMeasures) ∧
    (∀ v ∈ AllViews,
      v.Aggregation = viewCount ∨
      v.Aggregation = defaultBytesDistribution ∨
      v.Aggregation = defaultMillisecondsDistribution) ∧
    (∃ bs, bs ≠ [] ∧ defaultBytesDistribution = Aggregation.distribution bs) ∧
    (∃ bs, bs ≠ [] ∧ defaultMillisecondsDistribution = Aggregation.distribution bs) ∧
    (∀ v ∈ AllViews,
      v.Aggregation = Aggregation.count ∨
      ∃ bs, bs ≠ [] ∧ v.Aggregation = Aggregation.distribution bs) := by
  refine ⟨by decide, ?_, ⟨defaultBytesBounds, by simp [defaultBytesBounds], rfl⟩,
    ⟨defaultMillisecondsBounds, by simp [defaultMillisecondsBounds], rfl⟩, ?_⟩
  · intro v hv
    simp only [AllViews, List.mem_cons, List.mem_singleton, List.not_mem_nil, or_false] at hv
    rcases hv with h | h | h | h | h | h | h | h | h | h | h | h | h <;> subst h <;> simp
  · intro v hv
    simp only [AllViews, List.mem_cons, List.mem_singleton, List.not_mem_nil, or_false] at hv
    rcases hv with h | h | h | h | h | h | h | h | h | h | h | h | h <;> subst h <;>
      simp [viewCount, defaultBytesDistribution, defaultMillisecondsDistribution,
        viewDistribution, defaultBytesBounds, defaultMillisecondsBounds]

/-- C2: the names of the declared measurements are pairwise distinct, and hence so are
their (name, unit, value-kind) triples. -/
theorem declaredMeasures_names_distinct :
    (declaredMeasures.map Measure.name).Nodup ∧
    (declaredMeasures.map (fun m => (m.name, m.unit, m.kind))).Nodup ∧
    (∀ m1 ∈ declaredMeasures, ∀ m2 ∈ declaredMeasures, m1.name = m2.name → m1 = m2) := by
  refine ⟨by decide, by decide, by decide⟩

/-- C3 fails as stated: the measurement block declares pairwise distinct measures and their
number is not thirteen. -/
theorem declaredMeasures_not_thirteen :
    declaredMeasures.Nodup ∧ ¬ (declaredMeasures.length = 13) := by
  refine ⟨by decide, by decide⟩

/-- C3 amended: the set of declared measurements has exactly fourteen elements (the list of
declarations has no repetition and has length fourteen). -/
theorem declaredMeasures_fourteen :
    declaredMeasures.toFinset.card = 14 ∧ declaredMeasures.length = 14 := by
  refine ⟨by decide, by decide⟩

/-- C4: key_length and value_length are integer measures with unit "By", roundtrip_latency
is a float measure with unit "ms", and every other declared measure, namely the eleven
listed ones, is an integer measure with unit "1". -/
theorem declaredMeasures_unit_and_kind :
    (∀ m ∈ declaredMeasures, m.name = "key_length" ∨ m.name = "value_length" →
      m.kind = ValueKind.int64 ∧ m.unit = "By") ∧
    (∀ m ∈ declaredMeasures, m.name = "roundtrip_latency" →
      m.kind = ValueKind.float64 ∧ m.unit = "ms") ∧
    (∀ m ∈ declaredMeasures,
      ¬ (m.name = "key_length" ∨ m.name = "value_length" ∨ m.name = "roundtrip_latency") →
      m.kind = ValueKind.int64 ∧ m.unit = "1" ∧
      m.name ∈ ["gets", "cache_hits", "cache_misses", "star_loads", "star_errors", "loads",
        "loads_errors", "loads_deduped", "local_loads", "local_load_errors",
        "server_requests"]) ∧
    (∀ n ∈ ["gets", "cache_hits", "cache_misses", "star_loads", "star_errors", "loads",
        "loads_errors", "loads_deduped", "local_loads", "local_load_errors",
        "server_requests", "key_length", "value_length", "roundtrip_latency"],
      ∃ m ∈ declaredMeasures, m.name = n) := by
  refine ⟨by decide, by decide, by decide, by decide⟩

/-- C5: the byte ladder is the stated list of fourteen boundaries, it is strictly
ascending, and every view whose measure has unit bytes, which are exactly the key_length and
value_length views, has that ladder as its distribution boundaries. -/
theorem bytes_ladder_shared :
    defaultBytesBounds =
      [0, 1024, 2048, 4096, 16384, 65536, 262144, 1048576, 4194304, 16777216, 67108864,
       268435456, 1073741824, 4294967296] ∧
    defaultBytesBounds.length = 14 ∧
    defaultBytesBounds.Pairwise (· < ·) ∧
    (∀ v ∈ AllViews, v.Measure.unit = unitBytes →
      v.Aggregation = Aggregation.distribution defaultBytesBounds) ∧
    (AllViews.filter (fun v => v.Measure.unit = unitBytes)).map View.Name =
      ["galaxycache/key_length", "galaxycache/value_length"] := by
  refine ⟨rfl, by decide, bytes_sorted, by decide, by decide⟩

/-- C6: the roundtrip_latency view uses the millisecond ladder, whose boundaries are
strictly ascending, start with 0, continue with 0.01 and end with 100000. -/
theorem milliseconds_ladder_ascending :
    (∃ v ∈ AllViews, v.Name = "galaxycache/roundtrip_latency") ∧
    (∀ v ∈ AllViews, v.Name = "galaxycache/roundtrip_latency" →
      v.Aggregation = Aggregation.distribution defaultMillisecondsBounds) ∧
    defaultMillisecondsBounds.Pairwise (· < ·) ∧
    defaultMillisecondsBounds.head? = some 0 ∧
    defaultMillisecondsBounds.get? 1 = some (1 / 100) ∧
    defaultMillisecondsBounds.getLast? = some 100000 := by
  refine ⟨by decide, ?_, ms_sorted, by simp [defaultMillisecondsBounds], ?_,
    by simp [defaultMillisecondsBounds]⟩
  · intro v hv
    simp only [AllViews, List.mem_cons, List.mem_singleton, List.not_mem_nil, or_false] at hv
    rcases hv with h | h | h | h | h | h | h | h | h | h | h | h | h <;> subst h <;>
      first
        | (intro hn; exact absurd hn (by decide))
        | (intro _; rfl)
  · simp only [defaultMillisecondsBounds, List.get?_cons_succ, List.get?_cons_zero]
    norm_num

/-- C10: `AllViews` has thirteen views, no measure feeds two of them, every view is named
"galaxycache/" followed by the name of its measure, and loads_errors (`MLoadErrors`) is the
only declared measure that no view reads. -/
theorem allViews_one_per_measure :
    AllViews.length = 13 ∧
    (AllViews.map View.Measure).Nodup ∧
    (∀ v ∈ AllViews, v.Name = "galaxycache/" ++ v.Measure.name) ∧
    MLoadErrors ∈ declaredMeasures ∧
    MLoadErrors.name = "loads_errors" ∧
    (∀ m ∈ declaredMeasures, (∀ v ∈ AllViews, v.Measure ≠ m) ↔ m = MLoadErrors) := by
  refine ⟨by decide, by decide, by decide, by decide, by decide, by decide⟩

theorem timeSince_eq_clamp (now start : Int) :
    timeSince now start = max minDuration (min maxDuration (now - start)) := by
  simp only [timeSince, minDuration, maxDuration]
  split_ifs <;> omega

theorem sinceInMilliseconds_eq (now start : Int) :
    sinceInMilliseconds now start = ((timeSince now start : Int) : ℚ) / 1000000 := by
  simp only [sinceInMilliseconds, nanoseconds]
  norm_num

/-- C7 fails as stated: from the zero instant to an instant 63082281600 seconds later the
delta does not fit a `Duration`; the result is the maximum duration divided by 1,000,000
and not the delta divided by 1,000,000. -/
theorem sinceInMilliseconds_saturates_example :
    sinceInMilliseconds 63082281600000000000 0 = 9223372036854775807 / 1000000 ∧
    sinceInMilliseconds 63082281600000000000 0 ≠
      ((63082281600000000000 - 0 : Int) : ℚ) / 1000000 := by
  have h : sinceInMilliseconds 63082281600000000000 0 = 9223372036854775807 / 1000000 := by
    rw [sinceInMilliseconds_eq, timeSince_eq_clamp]
    norm_num [minDuration, maxDuration]
  refine ⟨h, ?_⟩
  rw [h]
  norm_num

/-- C7 amended: `sinceInMilliseconds` is the nanosecond delta, clamped to the range of a
`Duration`, divided by 1,000,000; it is the delta divided by 1,000,000 whenever the delta
fits that range. It is non-negative when the clock has not gone back, negative only when it
has, and equals `D` when the delta fits the range and is exactly `D` milliseconds. The
function is total: it has no error case. -/
theorem sinceInMilliseconds_clamped (now start : Int) :
    sinceInMilliseconds now start =
      ((max minDuration (min maxDuration (now - start)) : Int) : ℚ) / 1000000 ∧
    (minDuration ≤ now - start → now - start ≤ maxDuration →
      sinceInMilliseconds now start = ((now - start : Int) : ℚ) / 1000000) ∧
    (start ≤ now → 0 ≤ sinceInMilliseconds now start) ∧
    (sinceInMilliseconds now start < 0 ↔ now < start) ∧
    (∀ D : ℚ, minDuration ≤ now - start → now - start ≤ maxDuration →
      ((now - start : Int) : ℚ) = D * 1000000 → sinceInMilliseconds now start = D) := by
  have h0 := sinceInMilliseconds_eq now start
  have hc := timeSince_eq_clamp now start
  have hin : minDuration ≤ now - start → now - start ≤ maxDuration →
      timeSince now start = now - start := by
    intro h1 h2
    rw [hc]
    omega
  refine ⟨by rw [h0, hc], ?_, ?_, ?_, ?_⟩
  · intro h1 h2
    rw [h0, hin h1 h2]
  · intro h
    rw [h0]
    have h1 : (0 : Int) ≤ timeSince now start := by
      rw [hc]
      simp only [minDuration, maxDuration]
      omega
    have : (0 : ℚ) ≤ ((timeSince now start : Int) : ℚ) := by exact_mod_cast h1
    positivity
  · rw [h0, div_lt_iff₀ (by norm_num : (0 : ℚ) < 1000000), zero_mul]
    have key : timeSince now start < 0 ↔ now < start := by
      rw [hc]
      simp only [minDuration, maxDuration]
      omega
    rw [← key]
    exact_mod_cast Iff.rfl
  · intro D h1 h2 hD
    rw [h0, hin h1 h2, hD]
    field_simp

theorem sinceInMilliseconds_clamped_witness :
    sinceInMilliseconds 13500000 1000000 = ((13500000 - 1000000 : Int) : ℚ) / 1000000 ∧
    0 ≤ sinceInMilliseconds 13500000 1000000 ∧
    sinceInMilliseconds 13500000 1000000 = 25 / 2 :=
  ⟨(sinceInMilliseconds_clamped 13500000 1000000).2.1 (by decide) (by decide),
   (sinceInMilliseconds_clamped 13500000 1000000).2.2.1 (by decide),
   (sinceInMilliseconds_clamped 13500000 1000000).2.2.2.2 (25 / 2) (by decide) (by decide)
     (by norm_num)⟩

/-- In a strictly ascending ladder starting at `a`, every value from `a` up to, but not
including, the last boundary lies in exactly one bucket. -/
theorem existsUnique_bucket_of_chain (l : List ℚ) :
    ∀ a : ℚ, List.Chain (· < ·) a l → ∀ v : ℚ, a ≤ v →
      v < (a :: l).getLast (List.cons_ne_nil a l) →
      ∃! p, p ∈ buckets (a :: l) ∧ p.1 ≤ v ∧ v < p.2 := by
  induction l with
  | nil =>
    intro a _ v hav hv
    simp only [List.getLast_singleton] at hv
    exact absurd hv (not_lt.mpr hav)
  | cons b t ih =>
    intro a hc v hav hv
    have hab : a < b := (List.chain_cons.mp hc).1
    have hbt : List.Chain (· < ·) b t := (List.chain_cons.mp hc).2
    have hmem : ∀ x ∈ b :: t, b ≤ x := by
      intro x hx
      rcases List.mem_cons.mp hx with h | h
      · exact le_of_eq h.symm
      · exact le_of_lt (List.rel_of_pairwise_cons (List.chain_iff_pairwise.mp hbt) h)
    have hz : buckets (a :: b :: t) = (a, b) :: buckets (b :: t) := by
      simp [buckets]
    rw [List.getLast_cons (List.cons_ne_nil b t)] at hv
    by_cases hvb : v < b
    · refine ⟨(a, b), ⟨by rw [hz]; exact List.mem_cons_self _ _, hav, hvb⟩, ?_⟩
      rintro q ⟨hq, hq1, _⟩
      rw [hz] at hq
      rcases List.mem_cons.mp hq with h | h
      · exact h
      · have hq' : q.1 ∈ b :: t := by
          have := (List.of_mem_zip (show (q.1, q.2) ∈ (b :: t).zip (b :: t).tail from h)).1
          exact this
        exact absurd (lt_of_le_of_lt (le_trans (hmem _ hq') hq1) hvb) (lt_irrefl _)
    · have hbv : b ≤ v := not_lt.mp hvb
      obtain ⟨p, ⟨hp, hp1, hp2⟩, hu⟩ := ih b hbt v hbv hv
      refine ⟨p, ⟨by rw [hz]; exact List.mem_cons_of_mem _ hp, hp1, hp2⟩, ?_⟩
      rintro q ⟨hq, hq1, hq2⟩
      rw [hz] at hq
      rcases List.mem_cons.mp hq with h | h
      · subst h
        exact absurd hq2 hvb
      · exact hu q ⟨h, hq1, hq2⟩

theorem bytes_existsUnique_bucket (v : ℚ) (h0 : 0 ≤ v) (h1 : v < 4294967296) :
    ∃! p, p ∈ buckets defaultBytesBounds ∧ p.1 ≤ v ∧ v < p.2 := by
  have hc := bytes_chain
  unfold defaultBytesBounds at hc ⊢
  exact existsUnique_bucket_of_chain _ 0 hc v h0 (by simpa using h1)

theorem ms_existsUnique_bucket (v : ℚ) (h0 : 0 ≤ v) (h1 : v < 100000) :
    ∃! p, p ∈ buckets defaultMillisecondsBounds ∧ p.1 ≤ v ∧ v < p.2 := by
  have hc := ms_chain
  unfold defaultMillisecondsBounds at hc ⊢
  exact existsUnique_bucket_of_chain _ 0 hc v h0 (by simpa using h1)

/-- C9: on each of the two ladders every value from the first boundary up to, but not
including, the last one lies between exactly one pair of consecutive boundaries; on the byte
ladder the pair of 37 is (0, 1024) and on the millisecond ladder the pair of 12.5 is
(10, 13). -/
theorem ladder_bucket_unique :
    (∀ l ∈ [defaultBytesBounds, defaultMillisecondsBounds], ∀ first last v : ℚ,
      l.head? = some first → l.getLast? = some last → first ≤ v → v < last →
      ∃! p, p ∈ buckets l ∧ p.1 ≤ v ∧ v < p.2) ∧
    ((0, 1024) ∈ buckets defaultBytesBounds ∧
      ∀ p ∈ buckets defaultBytesBounds, (p.1 ≤ 37 ∧ 37 < p.2) ↔ p = (0, 1024)) ∧
    ((10, 13) ∈ buckets defaultMillisecondsBounds ∧
      ∀ p ∈ buckets defaultMillisecondsBounds, (p.1 ≤ 12.5 ∧ 12.5 < p.2) ↔ p = (10, 13)) := by
  have hb : (0, 1024) ∈ buckets defaultBytesBounds := by
    simp [buckets, defaultBytesBounds]
  have hm : (10, 13) ∈ buckets defaultMillisecondsBounds := by
    simp [buckets, defaultMillisecondsBounds]
  refine ⟨?_, ⟨hb, ?_⟩, ⟨hm, ?_⟩⟩
  · intro l hl first last v hfirst hlast h0 h1
    simp only [List.mem_cons, List.mem_singleton, List.not_mem_nil, or_false] at hl
    rcases hl with rfl | rfl
    · have e0 : first = 0 := by
        simpa [defaultBytesBounds] using hfirst.symm
      have e1 : last = 4294967296 := by
        simpa [defaultBytesBounds] using hlast.symm
      subst e0 e1
      exact bytes_existsUnique_bucket v h0 h1
    · have e0 : first = 0 := by
        simpa [defaultMillisecondsBounds] using hfirst.symm
      have e1 : last = 100000 := by
        simpa [defaultMillisecondsBounds] using hlast.symm
      subst e0 e1
      exact ms_existsUnique_bucket v h0 h1
  · intro p hp
    constructor
    · intro h
      exact (bytes_existsUnique_bucket 37 (by norm_num) (by norm_num)).unique
        ⟨hp, h⟩ ⟨hb, by norm_num, by norm_num⟩
    · rintro rfl
      norm_num
  · intro p hp
    constructor
    · intro h
      exact (ms_existsUnique_bucket 12.5 (by norm_num) (by norm_num)).unique
        ⟨hp, h⟩ ⟨hm, by norm_num, by norm_num⟩
    · rintro rfl
      norm_num

theorem ladder_bucket_unique_witness :
    ∃! p, p ∈ buckets defaultBytesBounds ∧ p.1 ≤ (37 : ℚ) ∧ (37 : ℚ) < p.2 :=
  ladder_bucket_unique.1 defaultBytesBounds (by simp) 0 4294967296 37
    (by simp [defaultBytesBounds]) (by simp [defaultBytesBounds]) (by norm_num) (by norm_num)

end Galaxycache
